import Mathlib

/-
Shallow embedding of the unbuilt-api notification handlers.

Source files:
  src/unnamed/part_000            the publish-event handler for case files
                                  (Contentful webhook, category filtering,
                                  sent/skipped/errors counters)
  src/api/contentful-webhook.js   a publish-event handler draft for projects
                                  (ok-status check, notification_history insert)
  src/api/send-scheduled-notifications.js
                                  the scheduled dispatch job (quarter-hour slot
                                  rounding, time-window recipient query,
                                  deduplication against notification_history)

JavaScript values that flow through the handlers are modelled by the
inductive JSVal; truthiness and strict equality follow the JS semantics
for the primitive values, and strict equality on two object or array
values is modelled as false, because the values compared by the handlers
always come from distinct allocations (a freshly parsed webhook body
against freshly fetched database rows), so reference equality cannot
hold between them.
-/

set_option autoImplicit false

namespace UnbuiltApi

/-- A JavaScript value, as far as the handlers inspect one. -/
inductive JSVal where
  | undefinedV
  | nullV
  | boolV (b : Bool)
  | numV (n : Int)
  | strV (s : String)
  | arrV (xs : List JSVal)
deriving Repr

/-- JS truthiness for the values of JSVal.  Arrays and objects are always
truthy, including the empty array. -/
def jsTruthy : JSVal → Bool
  | .undefinedV => false
  | .nullV => false
  | .boolV b => b
  | .numV n => n != 0
  | .strV s => s != ""
  | .arrV _ => true

/-- JS strict equality on the values the handlers compare.  Primitive
values compare structurally; two array values compare by reference, which
is false for values of distinct provenance (see the header comment). -/
def jsStrictEq : JSVal → JSVal → Bool
  | .undefinedV, .undefinedV => true
  | .nullV, .nullV => true
  | .boolV a, .boolV b => a == b
  | .numV a, .numV b => a == b
  | .strV a, .strV b => a == b
  | _, _ => false

/-- The data object inside a parsed push-gateway response; the status
field may be absent. -/
structure PushData where
  status : Option String
deriving DecidableEq, Repr

/-- Outcome of one call to the push gateway, as seen by the callers of
sendPushNotification / sendNotification:
  transportFailure : fetch or JSON parsing threw, the helper returned null;
  parsed d         : the gateway returned JSON; d is the data field, none
                     when that field is absent or falsy. -/
inductive GatewayResponse where
  | transportFailure
  | parsed (data : Option PushData)
deriving DecidableEq, Repr

/-- Success test of the publish-event handler in src/unnamed/part_000,
line 184: if (result and result.data) — any truthy data field counts,
the status inside it is never inspected. -/
def p0Success : GatewayResponse → Bool
  | .parsed (some _) => true
  | _ => false

/-- Success test of src/api/contentful-webhook.js, line 127:
result?.data?.status === 'ok'. -/
def cwSuccess : GatewayResponse → Bool
  | .parsed (some d) => d.status == some "ok"
  | _ => false

/-- Success test of src/api/send-scheduled-notifications.js, line 156:
result and result.data and result.data.status === 'ok'. -/
def schedSuccess : GatewayResponse → Bool
  | .parsed (some d) => d.status == some "ok"
  | _ => false

/-- Category normalization of src/unnamed/part_000, lines 117-120:
Array.isArray(raw) ? raw : (raw ? [raw] : []). -/
def normalizeFileCategory (raw : JSVal) : List JSVal :=
  match raw with
  | .arrV xs => xs
  | v => if jsTruthy v then [v] else []

/-! ## Publish-event handler of src/unnamed/part_000 -/

/-- One row of the user_push_tokens query in src/unnamed/part_000, lines
135-138: user_id, push_token, notification_case_types, restricted to rows
with notifications_enabled = true.  notification_case_types is a raw JSON
column value (null, an array, or anything else). -/
structure WebhookUser where
  user_id : String
  push_token : String
  notification_case_types : JSVal

/-- The case-file record built in src/unnamed/part_000, lines 122-128. -/
structure CaseFile where
  id : String
  title : JSVal
  caseIdNumber : JSVal
  fileCategory : List JSVal
  slug : JSVal

/-- The skip test of src/unnamed/part_000, lines 165-180: the user is
skipped exactly when notification_case_types is a non-empty array none of
whose elements is strictly equal to a category of the case file. -/
def prefsBlock (prefs : JSVal) (cats : List JSVal) : Bool :=
  match prefs with
  | .arrV l => decide (0 < l.length) && !(cats.any (fun c => l.any (fun t => jsStrictEq t c)))
  | _ => false

/-- Mutable state of the user loop in src/unnamed/part_000, lines 156-199:
the three counters, plus the number of push-gateway calls made and the
rows inserted into notification_history.  The loop body of part_000
contains no notification_history insert, so records is never extended
there; it is carried so that the effect of the handler on the delivery
ledger is part of the model. -/
structure P0LoopState where
  sent : Nat
  skipped : Nat
  errors : Nat
  attempts : Nat
  records : List (String × String)
deriving DecidableEq, Repr

/-- One iteration of the user loop in src/unnamed/part_000, lines 160-199.
The gateway is a function from push token to response; a transport
exception inside sendPushNotification is already returned as null there
(modelled by GatewayResponse.transportFailure), so the catch arm of the
loop corresponds to no reachable extra case here. -/
def p0Step (cf : CaseFile) (g : String → GatewayResponse)
    (s : P0LoopState) (u : WebhookUser) : P0LoopState :=
  if prefsBlock u.notification_case_types cf.fileCategory then
    { s with skipped := s.skipped + 1 }
  else
    let r := g u.push_token
    if p0Success r then
      { s with sent := s.sent + 1, attempts := s.attempts + 1 }
    else
      { s with errors := s.errors + 1, attempts := s.attempts + 1 }

/-- The whole user loop of src/unnamed/part_000, lines 156-199, started
from zeroed counters. -/
def p0ProcessUsers (cf : CaseFile) (g : String → GatewayResponse)
    (users : List WebhookUser) : P0LoopState :=
  users.foldl (p0Step cf g) ⟨0, 0, 0, 0, []⟩

/-- The sys object of the webhook body; contentType is
sys.contentType?.sys?.id collapsed to an optional string, none when any
link of that chain is absent. -/
structure WebhookSys where
  id : String
  contentType : Option String

/-- The fields object of the webhook body: for each field read by the
handler, the value found at the en-US locale, JSVal.undefinedV when the
field or the locale entry is absent (the source reads them with optional
chaining). caseIDNumber is the alternative spelling read at line 125. -/
structure WebhookFields where
  sendNotificationFlag : JSVal := .undefinedV
  title : JSVal := .undefinedV
  fileCategory : JSVal := .undefinedV
  caseIdNumber : JSVal := .undefinedV
  caseIDNumber : JSVal := .undefinedV
  slug : JSVal := .undefinedV

/-- A parsed webhook body: the sys object may be absent; destructuring a
missing fields object behaves like all fields absent, which the defaults
of WebhookFields capture. -/
structure WebhookBody where
  sys : Option WebhookSys
  fields : WebhookFields

/-- JS x || y on a JSVal default, as used when building the case file. -/
def jsOr (v : JSVal) (dflt : JSVal) : JSVal :=
  if jsTruthy v then v else dflt

/-- Case-file construction of src/unnamed/part_000, lines 117-128. -/
def buildCaseFile (sys : WebhookSys) (f : WebhookFields) : CaseFile :=
  { id := sys.id
    title := jsOr f.title (.strV "New Case File")
    caseIdNumber := jsOr f.caseIdNumber (jsOr f.caseIDNumber (.numV 0))
    fileCategory := normalizeFileCategory f.fileCategory
    slug := jsOr f.slug (.strV sys.id) }

/-- Result of one invocation of the part_000 handler: HTTP status, the
loop counters (all zero when the loop was never entered), the number of
push-gateway calls, and the notification_history rows written. -/
structure P0Result where
  status : Nat
  sent : Nat
  skipped : Nat
  errors : Nat
  attempts : Nat
  records : List (String × String)
deriving DecidableEq, Repr

/-- A P0Result for the paths that return before the user loop. -/
def p0Early (status : Nat) : P0Result :=
  ⟨status, 0, 0, 0, 0, []⟩

/-- The POST branch of the part_000 handler, lines 70-212 (the method
check at line 66 is outside the model: a non-POST request returns 405 and
touches nothing).  Arguments: the x-contentful-topic header, the parsed
body (none when the body was missing or unparseable), the result of the
user_push_tokens query (none for a query error), and the push gateway. -/
def caseFileHandler (topic : Option String) (body : Option WebhookBody)
    (usersResult : Option (List WebhookUser))
    (g : String → GatewayResponse) : P0Result :=
  match body with
  | none => p0Early 400
  | some b =>
    if topic ≠ some "ContentManagement.Entry.publish" then p0Early 200
    else match b.sys with
      | none => p0Early 400
      | some sys =>
        if sys.contentType ≠ some "redactedFileEntry" then p0Early 200
        else if ¬ jsStrictEq b.fields.sendNotificationFlag (.boolV true) then p0Early 200
        else
          let cf := buildCaseFile sys b.fields
          match usersResult with
          | none => p0Early 500
          | some users =>
            if users.isEmpty then p0Early 200
            else
              let s := p0ProcessUsers cf g users
              ⟨200, s.sent, s.skipped, s.errors, s.attempts, s.records⟩

/-- The negation of the flag test at line 105 of part_000, lifted to the
optional body: the send-notification flag at the default locale is
anything other than the boolean true (including a missing body). -/
def flagNotTrue : Option WebhookBody → Bool
  | none => true
  | some b => !(jsStrictEq b.fields.sendNotificationFlag (.boolV true))

/-! ## Publish-event handler draft of src/api/contentful-webhook.js

Its user loop (lines 123-149) differs from part_000 in two ways: success
requires an explicit ok status, and a successful dispatch inserts a
notification_history row before the next user is processed.  It has no
category filtering. -/

/-- One row of the user_push_tokens query in contentful-webhook.js,
lines 110-113. -/
structure CWUser where
  user_id : String
  push_token : String

/-- Loop state of contentful-webhook.js, lines 120-149: counters plus the
notification_history rows inserted ((user_id, project_id) pairs). -/
structure CWLoopState where
  sent : Nat
  errors : Nat
  records : List (String × String)
deriving DecidableEq, Repr

/-- One iteration of the user loop in contentful-webhook.js, lines
123-149: dispatch, then on result?.data?.status === 'ok' increment sent
and insert the history row, otherwise increment errors. -/
def cwStep (g : String → GatewayResponse) (projectId : String)
    (s : CWLoopState) (u : CWUser) : CWLoopState :=
  let r := g u.push_token
  if cwSuccess r then
    { s with sent := s.sent + 1, records := s.records ++ [(u.user_id, projectId)] }
  else
    { s with errors := s.errors + 1 }

/-- The whole user loop of contentful-webhook.js, lines 120-149. -/
def cwProcessUsers (g : String → GatewayResponse) (projectId : String)
    (users : List CWUser) : CWLoopState :=
  users.foldl (cwStep g projectId) ⟨0, 0, []⟩

/-! ## Scheduled dispatch job of src/api/send-scheduled-notifications.js -/

/-- Math.round(m / 15) * 15 of line 100, for the integer minute m in
0..59.  Math.round(x) is the floor of x + 1/2 (and m / 15 is never an
exact half-integer for integer m, so the float evaluation is exact here),
hence the Nat formula ((2 * m + 15) / 30) * 15. -/
def roundedMinute (m : Nat) : Nat :=
  ((2 * m + 15) / 30) * 15

/-- effectiveMinute of line 101: the rounded minute, with 60 wrapped to 0. -/
def effectiveMinute (m : Nat) : Nat :=
  if roundedMinute m = 60 then 0 else roundedMinute m

/-- effectiveHour of line 102: the current hour, plus one modulo 24 when
the rounding reached 60. -/
def effectiveHour (h m : Nat) : Nat :=
  if roundedMinute m = 60 then (h + 1) % 24 else h

/-- A recent project as mapped in getRecentProjects, lines 61-66. -/
structure Project where
  id : String
  title : String
  architect : String
deriving DecidableEq, Repr

/-- One row of the user_push_tokens table as read by the scheduled job,
lines 106-112, before the query filters are applied.  Hour and minute
are database integers. -/
structure SchedUser where
  user_id : String
  push_token : String
  notifications_enabled : Bool
  notification_hour : Int
  notification_minute : Int
deriving DecidableEq, Repr

/-- The recipient query of lines 106-112: enabled rows whose hour equals
the effective hour and whose minute lies in the inclusive window
[effectiveMinute - 7, effectiveMinute + 7] (computed in Int, so the lower
bound may be negative). -/
def querySchedUsers (rows : List SchedUser) (effH effM : Int) : List SchedUser :=
  rows.filter (fun u =>
    u.notifications_enabled
      && u.notification_hour == effH
      && decide (effM - 7 ≤ u.notification_minute)
      && decide (u.notification_minute ≤ effM + 7))

/-- The notification_history lookup of lines 134-142 for one user: the
project ids already recorded for that user, restricted to the ids of the
recent projects. -/
def notifiedIdsFor (hist : List (String × String)) (uid : String)
    (recentIds : List String) : List String :=
  (hist.filter (fun e => e.1 == uid && recentIds.contains e.2)).map (fun e => e.2)

/-- The filter of lines 144-146: the recent projects the user has not
been notified about yet, in the fetched (newest-first) order. -/
def newProjectsFor (hist : List (String × String)) (uid : String)
    (recent : List Project) : List Project :=
  recent.filter (fun p => !(notifiedIdsFor hist uid (recent.map (fun q => q.id))).contains p.id)

/-- State threaded through the user loop of the scheduled job: the
delivery ledger (notification_history) and the two counters.  The ledger
is live state: a row inserted for one user is visible to the lookup for
the next user in the same run. -/
structure SchedState where
  history : List (String × String)
  sent : Nat
  errors : Nat
deriving DecidableEq, Repr

/-- One iteration of the user loop of the scheduled job, lines 132-178:
look up the recorded projects, keep the unrecorded ones, skip the user
when none remain, otherwise dispatch the most recent one and, exactly on
an ok response, insert the history row and increment sent; any other
outcome increments errors. -/
def schedStep (g : String → GatewayResponse) (recent : List Project)
    (st : SchedState) (u : SchedUser) : SchedState :=
  match newProjectsFor st.history u.user_id recent with
  | [] => st
  | p :: _ =>
    let r := g u.push_token
    if schedSuccess r then
      { st with history := st.history ++ [(u.user_id, p.id)], sent := st.sent + 1 }
    else
      { st with errors := st.errors + 1 }

/-- The whole user loop of the scheduled job, lines 129-178, started from
the given ledger and zeroed counters. -/
def runScheduled (g : String → GatewayResponse) (recent : List Project)
    (users : List SchedUser) (hist : List (String × String)) : SchedState :=
  users.foldl (schedStep g recent) ⟨hist, 0, 0⟩

/-! ## Theorems -/

/-- C6: for every current hour and minute, the effective minute of the
scheduled job is one of 0, 15, 30, 45, with minutes 0-7 rounding to 0,
8-22 to 15, 23-37 to 30, 38-52 to 45, and 53-59 to 0 of the next hour;
the effective hour is the current hour except in the last band, where it
is the current hour plus one modulo 24. -/
theorem c6_effective_slot_rounding :
    ∀ h : Fin 24, ∀ m : Fin 60,
      (effectiveMinute m.val = 0 ∨ effectiveMinute m.val = 15 ∨
        effectiveMinute m.val = 30 ∨ effectiveMinute m.val = 45) ∧
      (m.val ≤ 7 → effectiveMinute m.val = 0 ∧ effectiveHour h.val m.val = h.val) ∧
      (8 ≤ m.val → m.val ≤ 22 → effectiveMinute m.val = 15 ∧ effectiveHour h.val m.val = h.val) ∧
      (23 ≤ m.val → m.val ≤ 37 → effectiveMinute m.val = 30 ∧ effectiveHour h.val m.val = h.val) ∧
      (38 ≤ m.val → m.val ≤ 52 → effectiveMinute m.val = 45 ∧ effectiveHour h.val m.val = h.val) ∧
      (53 ≤ m.val → effectiveMinute m.val = 0 ∧ effectiveHour h.val m.val = (h.val + 1) % 24) := by
  decide

/-- Witness for C6: at 23:55 the effective slot is 0:00 of the next day. -/
theorem c6_effective_slot_rounding_witness :
    effectiveMinute (55 : Fin 60).val = 0 ∧
      effectiveHour (23 : Fin 24).val (55 : Fin 60).val = ((23 : Fin 24).val + 1) % 24 :=
  (c6_effective_slot_rounding 23 55).2.2.2.2.2 (by decide)

/-- C7: the scheduled job matches exactly the enabled recipients whose
preferred hour equals the effective hour and whose preferred minute lies
in the inclusive window [effective minute - 7, effective minute + 7];
concretely, at effective slot 9:15 a recipient preferring 9:10 is
matched and one preferring 9:25 is not. -/
theorem c7_window_query :
    (∀ rows : List SchedUser, ∀ effH effM : Int, ∀ u : SchedUser,
      (u ∈ querySchedUsers rows effH effM ↔
        u ∈ rows ∧ u.notifications_enabled = true ∧ u.notification_hour = effH ∧
          effM - 7 ≤ u.notification_minute ∧ u.notification_minute ≤ effM + 7)) ∧
    querySchedUsers
        [⟨"u10", "t10", true, 9, 10⟩, ⟨"u25", "t25", true, 9, 25⟩] 9 15
      = [⟨"u10", "t10", true, 9, 10⟩] := by
  constructor
  · intro rows effH effM u
    simp only [querySchedUsers, List.mem_filter, Bool.and_eq_true, decide_eq_true_eq,
      beq_iff_eq, and_assoc]
  · decide

/-- C10: in the part_000 recipient loop every processed recipient lands
in exactly one of the three counters, so sent + skipped + errors equals
the number of recipients processed. -/
theorem c10_counter_partition (cf : CaseFile) (g : String → GatewayResponse)
    (users : List WebhookUser) :
    (p0ProcessUsers cf g users).sent + (p0ProcessUsers cf g users).skipped
      + (p0ProcessUsers cf g users).errors = users.length := by
  have key : ∀ us : List WebhookUser, ∀ s : P0LoopState,
      (us.foldl (p0Step cf g) s).sent + (us.foldl (p0Step cf g) s).skipped
        + (us.foldl (p0Step cf g) s).errors = s.sent + s.skipped + s.errors + us.length := by
    intro us
    induction us with
    | nil => intro s; simp
    | cons u rest ih =>
      intro s
      rw [List.foldl_cons, ih]
      by_cases hb : prefsBlock u.notification_case_types cf.fileCategory
      · simp [p0Step, hb]; omega
      · by_cases hp : p0Success (g u.push_token) <;> simp [p0Step, hb, hp] <;> omega
  simpa using key users ⟨0, 0, 0, 0, []⟩

theorem prefsBlock_true_iff (prefs : JSVal) (cats : List JSVal) :
    prefsBlock prefs cats = true ↔
      ∃ l, prefs = JSVal.arrV l ∧ l ≠ [] ∧
        ∀ c ∈ cats, ∀ t ∈ l, jsStrictEq t c = false := by
  cases prefs <;> simp [prefsBlock, List.any_eq_false, List.length_pos]

theorem prefsBlock_false_iff (prefs : JSVal) (cats : List JSVal) :
    prefsBlock prefs cats = false ↔
      ∀ l, prefs = JSVal.arrV l →
        l = [] ∨ ∃ c ∈ cats, ∃ t ∈ l, jsStrictEq t c = true := by
  rw [← Bool.not_eq_true, prefsBlock_true_iff]
  push_neg
  constructor
  · intro h l hl
    by_cases hnil : l = []
    · exact Or.inl hnil
    · rcases h l hl hnil with ⟨c, hc, t, ht, hne⟩
      exact Or.inr ⟨c, hc, t, ht, by simpa using hne⟩
  · intro h l hl hnil
    rcases h l hl with hcontra | ⟨c, hc, t, ht, heq⟩
    · exact absurd hcontra hnil
    · exact ⟨c, hc, t, ht, by simp [heq]⟩

/-- C3: in the part_000 recipient loop, dispatch is attempted exactly when
the category-preference value is not a non-empty array or shares an
element with the case-file categories; a recipient with a non-empty
preference array disjoint from the categories goes to the skipped
counter, and the error counter only ever counts attempted dispatches. -/
theorem c3_category_preference_filter (cf : CaseFile) (g : String → GatewayResponse)
    (u : WebhookUser) :
    ((p0ProcessUsers cf g [u]).attempts = 1 ↔
      (∀ l, u.notification_case_types = JSVal.arrV l →
        l = [] ∨ ∃ c ∈ cf.fileCategory, ∃ t ∈ l, jsStrictEq t c = true)) ∧
    ((p0ProcessUsers cf g [u]).skipped = 1 ↔
      (∃ l, u.notification_case_types = JSVal.arrV l ∧ l ≠ [] ∧
        ∀ c ∈ cf.fileCategory, ∀ t ∈ l, jsStrictEq t c = false)) ∧
    (p0ProcessUsers cf g [u]).skipped + (p0ProcessUsers cf g [u]).attempts = 1 ∧
    (p0ProcessUsers cf g [u]).sent + (p0ProcessUsers cf g [u]).errors
      = (p0ProcessUsers cf g [u]).attempts := by
  have hT := prefsBlock_true_iff u.notification_case_types cf.fileCategory
  have hF := prefsBlock_false_iff u.notification_case_types cf.fileCategory
  by_cases hb : prefsBlock u.notification_case_types cf.fileCategory
  · have hres : p0ProcessUsers cf g [u] = ⟨0, 1, 0, 0, []⟩ := by
      simp [p0ProcessUsers, p0Step, hb]
    obtain ⟨l, hl, hne, hdisj⟩ := hT.mp hb
    rw [hres]
    refine ⟨?_, ?_, by simp, by simp⟩
    · simp only [show ¬ (0 : Nat) = 1 from by omega, false_iff]
      intro hcl
      rcases hcl l hl with h0 | ⟨c, hc, t, ht, htrue⟩
      · exact hne h0
      · exact absurd htrue (by simp [hdisj c hc t ht])
    · simp only [true_iff, show (1 : Nat) = 1 from rfl]
      exact ⟨l, hl, hne, hdisj⟩
  · rw [Bool.not_eq_true] at hb
    have hres : p0ProcessUsers cf g [u]
        = if p0Success (g u.push_token) then ⟨1, 0, 0, 1, []⟩ else ⟨0, 0, 1, 1, []⟩ := by
      by_cases hp : p0Success (g u.push_token) <;> simp [p0ProcessUsers, p0Step, hb, hp]
    have hnotskip : ¬ ∃ l, u.notification_case_types = JSVal.arrV l ∧ l ≠ [] ∧
        ∀ c ∈ cf.fileCategory, ∀ t ∈ l, jsStrictEq t c = false := by
      intro hcl
      rw [hT.mpr hcl] at hb
      exact absurd hb (by simp)
    by_cases hp : p0Success (g u.push_token) <;>
      rw [hres] <;> simp only [hp, if_true, Bool.false_eq_true, if_false] <;>
        exact ⟨by simpa using hF.mp hb, by simpa using hnotskip, by simp, by simp⟩

theorem mem_notifiedIdsFor {hist : List (String × String)} {uid pid : String}
    {recentIds : List String} (hmem : (uid, pid) ∈ hist) (hrec : pid ∈ recentIds) :
    pid ∈ notifiedIdsFor hist uid recentIds := by
  unfold notifiedIdsFor
  exact List.mem_map.mpr
    ⟨(uid, pid), List.mem_filter.mpr ⟨hmem, by simp [List.elem_iff, hrec]⟩, rfl⟩

/-- C5: against a ledger that already pairs the recipient with the only
pending content item, a further run of the scheduled job skips that
recipient as caught up: the loop step leaves the state untouched, and a
whole run over just that recipient reports zero sends and zero errors
with the ledger unchanged. -/
theorem c5_second_run_sends_nothing (g : String → GatewayResponse) (p : Project)
    (hist : List (String × String)) (u : SchedUser) (s e : Nat)
    (hmem : (u.user_id, p.id) ∈ hist) :
    schedStep g [p] ⟨hist, s, e⟩ u = ⟨hist, s, e⟩ ∧
      runScheduled g [p] [u] hist = ⟨hist, 0, 0⟩ := by
  have hnew : newProjectsFor hist u.user_id [p] = [] := by
    have hmemId : p.id ∈ notifiedIdsFor hist u.user_id [p.id] :=
      mem_notifiedIdsFor hmem (by simp)
    unfold newProjectsFor
    simp [List.filter_eq_nil_iff, List.elem_iff, hmemId]
  have hstep : ∀ s e : Nat, schedStep g [p] ⟨hist, s, e⟩ u = ⟨hist, s, e⟩ := by
    intro s e
    unfold schedStep
    simp only [hnew]
  exact ⟨hstep s e, by simp [runScheduled, hstep 0 0]⟩

/-- Witness for C5 at a concrete recipient, project and ledger. -/
theorem c5_second_run_sends_nothing_witness :
    runScheduled (fun _ => GatewayResponse.parsed (some ⟨some "ok"⟩))
        [⟨"p1", "North Tower", "A"⟩] [⟨"u1", "tok1", true, 9, 0⟩] [("u1", "p1")]
      = ⟨[("u1", "p1")], 0, 0⟩ :=
  (c5_second_run_sends_nothing (fun _ => GatewayResponse.parsed (some ⟨some "ok"⟩))
    ⟨"p1", "North Tower", "A"⟩ [("u1", "p1")] ⟨"u1", "tok1", true, 9, 0⟩ 0 0
    (by simp)).2

/-- C1 counterexample: a parsed gateway response whose data carries the
status error is counted as sent, not as an error, by the part_000
publish-event handler loop, although it is not an explicit ok response
(the ok criterion of the scheduled job rejects it). -/
theorem c1_sent_without_ok_cex :
    p0Success (GatewayResponse.parsed (some ⟨some "error"⟩)) = true ∧
    schedSuccess (GatewayResponse.parsed (some ⟨some "error"⟩)) = false ∧
    (p0ProcessUsers ⟨"c1", JSVal.strV "T", JSVal.numV 1, [], JSVal.strV "s"⟩
        (fun _ => GatewayResponse.parsed (some ⟨some "error"⟩))
        [⟨"u1", "tok1", JSVal.nullV⟩]).sent = 1 ∧
    (p0ProcessUsers ⟨"c1", JSVal.strV "T", JSVal.numV 1, [], JSVal.strV "s"⟩
        (fun _ => GatewayResponse.parsed (some ⟨some "error"⟩))
        [⟨"u1", "tok1", JSVal.nullV⟩]).errors = 0 :=
  ⟨rfl, rfl, rfl, rfl⟩

/-- C1 amended: the scheduled job and the contentful-webhook handler count
a dispatch as sent exactly on a parsed response whose data carries the
explicit ok status, and count every other outcome (other status, missing
data, transport failure) as an error; the part_000 publish-event handler
instead counts a dispatch as sent exactly on a parsed response with a
truthy data field, never inspecting the status inside it, and counts
every other outcome as an error. -/
theorem c1_success_criteria_amended (r : GatewayResponse) (cf : CaseFile)
    (g : String → GatewayResponse) (u : WebhookUser) (su : SchedUser)
    (recent : List Project) (hist : List (String × String))
    (pid : String) (cwu : CWUser) :
    (schedSuccess r = true ↔
      ∃ d, r = GatewayResponse.parsed (some d) ∧ d.status = some "ok") ∧
    cwSuccess r = schedSuccess r ∧
    (p0Success r = true ↔ ∃ d, r = GatewayResponse.parsed (some d)) ∧
    (p0ProcessUsers cf g [u]).sent
      = (if prefsBlock u.notification_case_types cf.fileCategory then 0
         else if p0Success (g u.push_token) then 1 else 0) ∧
    (p0ProcessUsers cf g [u]).errors
      = (if prefsBlock u.notification_case_types cf.fileCategory then 0
         else if p0Success (g u.push_token) then 0 else 1) ∧
    (cwProcessUsers g pid [cwu]).sent
      = (if cwSuccess (g cwu.push_token) then 1 else 0) ∧
    (cwProcessUsers g pid [cwu]).errors
      = (if cwSuccess (g cwu.push_token) then 0 else 1) ∧
    (runScheduled g recent [su] hist).sent
      = (if newProjectsFor hist su.user_id recent = [] then 0
         else if schedSuccess (g su.push_token) then 1 else 0) ∧
    (runScheduled g recent [su] hist).errors
      = (if newProjectsFor hist su.user_id recent = [] then 0
         else if schedSuccess (g su.push_token) then 0 else 1) := by
  refine ⟨?_, ?_, ?_, ?_, ?_, ?_, ?_, ?_, ?_⟩
  · cases r with
    | transportFailure => simp [schedSuccess]
    | parsed d => cases d <;> simp [schedSuccess]
  · cases r with
    | transportFailure => rfl
    | parsed d => cases d <;> rfl
  · cases r with
    | transportFailure => simp [p0Success]
    | parsed d => cases d <;> simp [p0Success]
  · by_cases hb : prefsBlock u.notification_case_types cf.fileCategory
    · simp [p0ProcessUsers, p0Step, hb]
    · by_cases hp : p0Success (g u.push_token) <;> simp [p0ProcessUsers, p0Step, hb, hp]
  · by_cases hb : prefsBlock u.notification_case_types cf.fileCategory
    · simp [p0ProcessUsers, p0Step, hb]
    · by_cases hp : p0Success (g u.push_token) <;> simp [p0ProcessUsers, p0Step, hb, hp]
  · by_cases hp : cwSuccess (g cwu.push_token) <;> simp [cwProcessUsers, cwStep, hp]
  · by_cases hp : cwSuccess (g cwu.push_token) <;> simp [cwProcessUsers, cwStep, hp]
  · cases hnp : newProjectsFor hist su.user_id recent with
    | nil => simp [runScheduled, schedStep, hnp]
    | cons p rest =>
      by_cases hp : schedSuccess (g su.push_token) <;>
        simp [runScheduled, schedStep, hnp, hp]
  · cases hnp : newProjectsFor hist su.user_id recent with
    | nil => simp [runScheduled, schedStep, hnp]
    | cons p rest =>
      by_cases hp : schedSuccess (g su.push_token) <;>
        simp [runScheduled, schedStep, hnp, hp]

theorem p0_foldl_records (cf : CaseFile) (g : String → GatewayResponse) :
    ∀ (us : List WebhookUser) (s : P0LoopState),
      (us.foldl (p0Step cf g) s).records = s.records := by
  intro us
  induction us with
  | nil => intro s; rfl
  | cons u rest ih =>
    intro s
    rw [List.foldl_cons, ih]
    by_cases hb : prefsBlock u.notification_case_types cf.fileCategory
    · simp [p0Step, hb]
    · by_cases hp : p0Success (g u.push_token) <;> simp [p0Step, hb, hp]

/-- C2 counterexample: in the part_000 publish-event handler loop, a
dispatch that is confirmed successful even by the explicit-ok criterion
is counted as sent yet writes no delivery record at all. -/
theorem c2_success_writes_no_record_cex :
    (p0ProcessUsers ⟨"c2", JSVal.strV "T", JSVal.numV 2, [], JSVal.strV "s"⟩
        (fun _ => GatewayResponse.parsed (some ⟨some "ok"⟩))
        [⟨"u2", "tok2", JSVal.nullV⟩]).sent = 1 ∧
    (p0ProcessUsers ⟨"c2", JSVal.strV "T", JSVal.numV 2, [], JSVal.strV "s"⟩
        (fun _ => GatewayResponse.parsed (some ⟨some "ok"⟩))
        [⟨"u2", "tok2", JSVal.nullV⟩]).records = [] :=
  ⟨rfl, rfl⟩

/-- C2 amended: on the scheduled path a delivery record for the dispatched
item is appended to the ledger exactly when the response is an explicit
ok, before the next recipient is processed (the loop threads the updated
ledger), and likewise in the contentful-webhook draft; the part_000
publish-event loop writes no delivery record for any outcome. -/
theorem c2_record_iff_ok_amended (g : String → GatewayResponse) (recent : List Project)
    (hist : List (String × String)) (s e : Nat) (u : SchedUser)
    (pid : String) (cw : CWUser) (recs : List (String × String)) (cs ce : Nat)
    (cf : CaseFile) (gw : String → GatewayResponse) (wus : List WebhookUser)
    (u1 : SchedUser) (rest : List SchedUser) :
    ((schedStep g recent ⟨hist, s, e⟩ u).history
      = match newProjectsFor hist u.user_id recent with
        | [] => hist
        | p :: _ =>
          if schedSuccess (g u.push_token) then hist ++ [(u.user_id, p.id)] else hist) ∧
    ((cwStep g pid ⟨cs, ce, recs⟩ cw).records
      = if cwSuccess (g cw.push_token) then recs ++ [(cw.user_id, pid)] else recs) ∧
    (p0ProcessUsers cf gw wus).records = [] ∧
    runScheduled g recent (u1 :: rest) hist
      = rest.foldl (schedStep g recent) (schedStep g recent ⟨hist, 0, 0⟩ u1) := by
  refine ⟨?_, ?_, ?_, rfl⟩
  · cases hnp : newProjectsFor hist u.user_id recent with
    | nil => simp [schedStep, hnp]
    | cons p prest =>
      by_cases hp : schedSuccess (g u.push_token) <;> simp [schedStep, hnp, hp]
  · by_cases hp : cwSuccess (g cw.push_token) <;> simp [cwStep, hp]
  · exact p0_foldl_records cf gw wus ⟨0, 0, 0, 0, []⟩

/-- Witness for C3: a recipient preferring only the design category is
skipped for a case file whose only category is architecture. -/
theorem c3_category_preference_filter_witness :
    (p0ProcessUsers
        ⟨"abc123", JSVal.strV "North Tower", JSVal.numV 1,
          [JSVal.strV "architecture"], JSVal.strV "north-tower"⟩
        (fun _ => GatewayResponse.parsed (some ⟨some "ok"⟩))
        [⟨"r2", "tok2", JSVal.arrV [JSVal.strV "design"]⟩]).skipped = 1 :=
  (c3_category_preference_filter
      ⟨"abc123", JSVal.strV "North Tower", JSVal.numV 1,
        [JSVal.strV "architecture"], JSVal.strV "north-tower"⟩
      (fun _ => GatewayResponse.parsed (some ⟨some "ok"⟩))
      ⟨"r2", "tok2", JSVal.arrV [JSVal.strV "design"]⟩).2.1.mpr
    ⟨[JSVal.strV "design"], rfl, by simp, by
      intro c hc t ht
      simp only [List.mem_singleton] at hc ht
      subst hc; subst ht; rfl⟩

/-- C4 counterexample: with the publish topic, a body whose
send-notification flag is not true and which lacks a sys object makes the
part_000 handler return status 400, not 200 (the dispatcher is still
never invoked). -/
theorem c4_flag_false_not_always_200_cex :
    flagNotTrue (some ⟨none, {}⟩) = true ∧
    (caseFileHandler (some "ContentManagement.Entry.publish")
        (some ⟨none, {}⟩) (some [])
        (fun _ => GatewayResponse.transportFailure)).status = 400 ∧
    (caseFileHandler (some "ContentManagement.Entry.publish")
        (some ⟨none, {}⟩) (some [])
        (fun _ => GatewayResponse.transportFailure)).attempts = 0 :=
  ⟨rfl, rfl, rfl⟩

/-- C4 amended: whenever the send-notification flag is not the boolean
true, the part_000 handler never invokes the dispatcher and sends
nothing; its status is 200, except that a missing body, or a body without
a sys object on the publish topic, yields 400. -/
theorem c4_no_dispatch_amended (topic : Option String) (body : Option WebhookBody)
    (usersResult : Option (List WebhookUser)) (g : String → GatewayResponse)
    (hflag : flagNotTrue body = true) :
    (caseFileHandler topic body usersResult g).attempts = 0 ∧
    (caseFileHandler topic body usersResult g).sent = 0 ∧
    (caseFileHandler topic body usersResult g).status
      = match body with
        | none => 400
        | some b =>
          match b.sys with
          | none => if topic = some "ContentManagement.Entry.publish" then 400 else 200
          | some _ => 200 := by
  cases body with
  | none => exact ⟨rfl, rfl, rfl⟩
  | some b =>
    have hf : jsStrictEq b.fields.sendNotificationFlag (.boolV true) = false := by
      simpa [flagNotTrue] using hflag
    by_cases ht : topic = some "ContentManagement.Entry.publish"
    · cases hsys : b.sys with
      | none => simp [caseFileHandler, ht, hsys, p0Early]
      | some sys =>
        by_cases hct : sys.contentType = some "redactedFileEntry" <;>
          simp [caseFileHandler, ht, hsys, hct, hf, p0Early]
    · cases hb2 : b.sys <;> simp [caseFileHandler, ht, p0Early, hb2]

/-- Witness for C4 amended: a non-publish topic with the flag absent
yields status 200, zero gateway calls and zero sends. -/
theorem c4_no_dispatch_amended_witness :
    (caseFileHandler (some "ContentManagement.Entry.unpublish")
        (some ⟨some ⟨"e1", some "redactedFileEntry"⟩, {}⟩) (some [])
        (fun _ => GatewayResponse.transportFailure)).attempts = 0 ∧
    (caseFileHandler (some "ContentManagement.Entry.unpublish")
        (some ⟨some ⟨"e1", some "redactedFileEntry"⟩, {}⟩) (some [])
        (fun _ => GatewayResponse.transportFailure)).sent = 0 ∧
    (caseFileHandler (some "ContentManagement.Entry.unpublish")
        (some ⟨some ⟨"e1", some "redactedFileEntry"⟩, {}⟩) (some [])
        (fun _ => GatewayResponse.transportFailure)).status = 200 := by
  have h := c4_no_dispatch_amended (some "ContentManagement.Entry.unpublish")
    (some ⟨some ⟨"e1", some "redactedFileEntry"⟩, {}⟩) (some [])
    (fun _ => GatewayResponse.transportFailure) (by decide)
  exact ⟨h.1, h.2.1, h.2.2.trans (by decide)⟩

theorem effectiveMinute_le_45 : ∀ m : Fin 60, effectiveMinute m.val ≤ 45 := by
  decide

/-- C8 counterexample: an enabled recipient with preferred time 12:55 is
matched by no run at all: whatever the current hour and minute, the
recipient query returns nobody, because the effective minute is at most
45 and the window reaches only 7 past it. -/
theorem c8_uncovered_slot_cex :
    ¬ ∃ h m : Nat, h < 24 ∧ m < 60 ∧
      querySchedUsers [⟨"u55", "tok55", true, 12, 55⟩]
          ((effectiveHour h m : Nat) : Int) ((effectiveMinute m : Nat) : Int)
        ≠ [] := by
  rintro ⟨h, m, hh, hm, hne⟩
  apply hne
  have hle : effectiveMinute m ≤ 45 := effectiveMinute_le_45 ⟨m, hm⟩
  rw [querySchedUsers, List.filter_eq_nil_iff]
  intro u hu
  rw [List.mem_singleton] at hu
  subst hu
  intro hcond
  simp only [Bool.and_eq_true, decide_eq_true_eq] at hcond
  omega

theorem querySchedUsers_singleton_pos (u : SchedUser) (effH effM : Int)
    (he : u.notifications_enabled = true) (hh : u.notification_hour = effH)
    (h1 : effM - 7 ≤ u.notification_minute) (h2 : u.notification_minute ≤ effM + 7) :
    querySchedUsers [u] effH effM = [u] := by
  simp [querySchedUsers, List.filter_cons]
  exact ⟨he, hh, by omega, by omega⟩

/-- C8 amended: every preferred time whose minute is at most 52 is covered
by some run: there is a current time-of-day whose effective slot has the
preferred hour and whose window contains the preferred minute, so the
recipient query returns the recipient; preferred minutes 53-59 are never
covered (see the counterexample). -/
theorem c8_coverage_amended (uid tok : String) (prefH prefM : Nat)
    (hH : prefH < 24) (hM : prefM ≤ 52) :
    ∃ h m : Nat, h < 24 ∧ m < 60 ∧
      querySchedUsers [⟨uid, tok, true, (prefH : Int), (prefM : Int)⟩]
          ((effectiveHour h m : Nat) : Int) ((effectiveMinute m : Nat) : Int)
        = [⟨uid, tok, true, (prefH : Int), (prefM : Int)⟩] := by
  rcases Nat.lt_or_ge prefM 8 with h7 | h8
  · refine ⟨prefH, 0, hH, by omega, ?_⟩
    rw [show effectiveHour prefH 0 = prefH from by simp [effectiveHour, roundedMinute],
      show effectiveMinute 0 = 0 from rfl]
    exact querySchedUsers_singleton_pos _ _ _ rfl rfl (by push_cast; omega)
      (by push_cast; omega)
  rcases Nat.lt_or_ge prefM 23 with h22 | h23
  · refine ⟨prefH, 15, hH, by omega, ?_⟩
    rw [show effectiveHour prefH 15 = prefH from by simp [effectiveHour, roundedMinute],
      show effectiveMinute 15 = 15 from rfl]
    exact querySchedUsers_singleton_pos _ _ _ rfl rfl (by push_cast; omega)
      (by push_cast; omega)
  rcases Nat.lt_or_ge prefM 38 with h37 | h38
  · refine ⟨prefH, 30, hH, by omega, ?_⟩
    rw [show effectiveHour prefH 30 = prefH from by simp [effectiveHour, roundedMinute],
      show effectiveMinute 30 = 30 from rfl]
    exact querySchedUsers_singleton_pos _ _ _ rfl rfl (by push_cast; omega)
      (by push_cast; omega)
  · refine ⟨prefH, 45, hH, by omega, ?_⟩
    rw [show effectiveHour prefH 45 = prefH from by simp [effectiveHour, roundedMinute],
      show effectiveMinute 45 = 45 from rfl]
    exact querySchedUsers_singleton_pos _ _ _ rfl rfl (by push_cast; omega)
      (by push_cast; omega)

/-- Witness for C8 amended: the preferred time 12:10 is covered by some
current time-of-day. -/
theorem c8_coverage_amended_witness :
    ∃ h m : Nat, h < 24 ∧ m < 60 ∧
      querySchedUsers [⟨"u1", "tok1", true, (12 : Int), (10 : Int)⟩]
          ((effectiveHour h m : Nat) : Int) ((effectiveMinute m : Nat) : Int)
        = [⟨"u1", "tok1", true, (12 : Int), (10 : Int)⟩] := by
  have h := c8_coverage_amended "u1" "tok1" 12 10 (by omega) (by omega)
  simpa using h

/-- C9 counterexample: the empty string is a present scalar category
value, yet normalization maps it to the empty list rather than to the
one-element list containing it. -/
theorem c9_falsy_scalar_cex :
    normalizeFileCategory (JSVal.strV "") = [] ∧
    JSVal.strV "" ≠ JSVal.undefinedV ∧
    normalizeFileCategory (JSVal.strV "") ≠ [JSVal.strV ""] := by
  refine ⟨rfl, fun h => JSVal.noConfusion h, ?_⟩
  intro h
  rw [show normalizeFileCategory (JSVal.strV "") = [] from rfl] at h
  exact List.noConfusion h

/-- C9 amended: normalization maps an absent value to the empty list,
keeps a list value as-is, maps a present truthy scalar to the one-element
list containing it, and maps a present falsy scalar (empty string, zero,
false, null) to the empty list. -/
theorem c9_normalization_amended :
    normalizeFileCategory JSVal.undefinedV = [] ∧
    normalizeFileCategory JSVal.nullV = [] ∧
    (∀ xs : List JSVal, normalizeFileCategory (JSVal.arrV xs) = xs) ∧
    (∀ s : String, s ≠ "" → normalizeFileCategory (JSVal.strV s) = [JSVal.strV s]) ∧
    normalizeFileCategory (JSVal.strV "") = [] ∧
    (∀ n : Int, n ≠ 0 → normalizeFileCategory (JSVal.numV n) = [JSVal.numV n]) ∧
    normalizeFileCategory (JSVal.numV 0) = [] ∧
    normalizeFileCategory (JSVal.boolV true) = [JSVal.boolV true] ∧
    normalizeFileCategory (JSVal.boolV false) = [] := by
  refine ⟨rfl, rfl, fun xs => rfl, ?_, rfl, ?_, rfl, rfl, rfl⟩
  · intro s hs
    simp [normalizeFileCategory, jsTruthy, hs]
  · intro n hn
    simp [normalizeFileCategory, jsTruthy, hn]

/-- Witness for C9 amended: a non-empty string and a non-zero number each
normalize to the singleton list. -/
theorem c9_normalization_amended_witness :
    normalizeFileCategory (JSVal.strV "architecture") = [JSVal.strV "architecture"] ∧
    normalizeFileCategory (JSVal.numV 3) = [JSVal.numV 3] :=
  ⟨c9_normalization_amended.2.2.2.1 "architecture" (by decide),
   c9_normalization_amended.2.2.2.2.2.1 3 (by decide)⟩

end UnbuiltApi
